import Mathlib

/-!
Verification development for the Intelligent-Browser-Agents repository.

The repository's multi-agent task-execution pipeline consists of an
execution layer (backend/execution: models.py, handlers.py, dispatcher.py,
executor.py, and the duplicated dict-returning handlers in
backend/3-Execution/execution_agent.py, all reproduced in the repository's
design documents) plus prompt-defined agent roles (orchestration,
verification, fallback, interaction).

Code-level functions are embedded here as pure Lean functions.  The live
Playwright page is modelled as an oracle `PrimOracle` that assigns to every
browser primitive call either success or a raised exception; each embedded
handler additionally returns the list of primitive calls it performed, which
is determined by the source's control flow (the `try`/`except` structure).
The `execution_time_ms` field, which the source fills from a wall clock, is
environmental timing and is not modelled.
-/

namespace IBA

/-- Python exceptions raised by Playwright calls.  `timeoutError` is the
`playwright TimeoutError` raised when a call exceeds its `timeout=` argument;
`exn` is any other exception.  Both are caught by the handlers' bare
`except Exception` clauses.  Each carries its `str(e)` rendering. -/
inductive PwError where
  | timeoutError (msg : String)
  | exn (msg : String)
deriving DecidableEq, Repr

/-- `str(e)` for a caught exception. -/
def errStr : PwError → String
  | .timeoutError m => m
  | .exn m => m

/-- Python `str(x)` for an optional string (`None` prints as "None"). -/
def pyStr : Option String → String
  | none => "None"
  | some s => s

/-- Python truthiness of an optional string: `None` and the empty string are
falsy (`if role and name:` in the handlers). -/
def truthy : Option String → Bool
  | none => false
  | some s => s ≠ ""

/-- One awaited Playwright primitive call, as performed by the handlers.
Arguments are carried so that a trace records exactly what was attempted.
(`sleep` seconds are modelled as `Nat`; the handler only threads the value.) -/
inductive Prim where
  | goto (url : Option String)
  | clickRoleName (role name : String)
  | clickRole (role : String)
  | clickText (text : String)
  | fillSearchBox (query : Option String)
  | keyboardType (text : Option String)
  | keyboardPress (key : Option String)
  | mouseWheel (dy : Int)
  | sleep (seconds : Option Nat)
deriving DecidableEq, Repr

/-- The live page, modelled as a deterministic oracle: every primitive call
either returns normally or raises an exception. -/
def PrimOracle : Type := Prim → Except PwError Unit

/-- Arguments of a browser `Action` (backend/execution/models.py
`ActionArgs`): a closed set of optional typed fields. -/
structure ActionArgs where
  url : Option String
  role : Option String
  name : Option String
  text : Option String
  direction : Option String
  key : Option String
  seconds : Option Nat
deriving DecidableEq, Repr

/-- An `ActionArgs` with every field `None`. -/
def ActionArgs.empty : ActionArgs :=
  ⟨none, none, none, none, none, none, none⟩

/-- A validated action (backend/execution/models.py `Action`).  The `action`
field is kept as a `String`: the Pydantic `Literal` restricts it to the seven
action kinds, but the dispatcher still defends against unknown values. -/
structure Action where
  action : String
  args : ActionArgs
deriving DecidableEq, Repr

/-- The Pydantic `Literal` of `ExecutionOutput.error_type`
(backend/execution/models.py, also `Action.error_type` in
backend/3-Execution/models.py). -/
def executionErrorTypes : List String :=
  ["none", "element_not_found", "ambiguous_step", "tool_limit",
   "navigation_blocked", "unknown"]

/-- The `error_type` enum of the VerificationDecision JSON schema in
prompts/verification.prompt.md. -/
def verificationErrorTypes : List String :=
  ["none", "execution_failure", "mismatch", "blocked",
   "insufficient_evidence", "unexpected_state"]

/-- Written from the spec's words (section 7), for comparison with the enums
found in the code: the claimed single shared error taxonomy. -/
def specErrorTaxonomy : List String :=
  ["none", "timeout", "element_not_found", "not_interactable", "detached",
   "navigation_failed", "upload_failed", "unsupported_action", "bad_command",
   "ambiguous_step", "tool_limit", "insufficient_evidence", "mismatch",
   "blocked", "unexpected_state", "escalation_limit_exceeded", "internal"]

namespace ExecutionAgent

/-!
The dict-returning handler set of backend/3-Execution/execution_agent.py,
reproduced in backend/docs/IG/Action/Action-Execution-Implementation.md.
Each handler returns the dict `\x7bstatus, error_type, message\x7d`, here
`ExecResult`, paired with the trace of primitive calls it performed.
Quote characters that the Python f-strings place around interpolated values
are omitted from the modelled messages.
-/

/-- The result dict of an execution_agent.py handler. -/
structure ExecResult where
  status : String
  error_type : String
  message : String
deriving DecidableEq, Repr

/-- handle_navigate: `await page.goto(url, timeout=10000)`; any exception
(timeouts included) is caught and classified as `navigation_blocked`. -/
def handle_navigate (page : PrimOracle) (url : Option String) :
    ExecResult × List Prim :=
  match page (Prim.goto url) with
  | .ok _ =>
      (⟨"success", "none", "Navigated to " ++ pyStr url⟩, [Prim.goto url])
  | .error e =>
      (⟨"failure", "navigation_blocked", "Failed to navigate: " ++ errStr e⟩,
       [Prim.goto url])

/-- handle_click (dict version): tries role+name, then role alone, then
visible text; each branch returns from inside the `try`.  When neither
`role` nor `name` is truthy no branch runs and the Python function falls
through its `try` without returning, yielding `None`.  Any exception is
caught and classified as `element_not_found`. -/
def handle_click (page : PrimOracle) (role name : Option String) :
    Option ExecResult × List Prim :=
  if truthy role ∧ truthy name then
    let p := Prim.clickRoleName (role.getD "") (name.getD "")
    match page p with
    | .ok _ =>
        (some ⟨"success", "none",
          "Clicked " ++ pyStr role ++ " " ++ pyStr name⟩, [p])
    | .error e =>
        (some ⟨"failure", "element_not_found",
          "Could not click element: " ++ errStr e⟩, [p])
  else if truthy role then
    let p := Prim.clickRole (role.getD "")
    match page p with
    | .ok _ => (some ⟨"success", "none", "Clicked " ++ pyStr role⟩, [p])
    | .error e =>
        (some ⟨"failure", "element_not_found",
          "Could not click element: " ++ errStr e⟩, [p])
  else if truthy name then
    let p := Prim.clickText (name.getD "")
    match page p with
    | .ok _ =>
        (some ⟨"success", "none",
          "Clicked element with text " ++ pyStr name⟩, [p])
    | .error e =>
        (some ⟨"failure", "element_not_found",
          "Could not click element: " ++ errStr e⟩, [p])
  else
    (none, [])

/-- handle_type: `await page.keyboard.type(text)`; exceptions are classified
as `tool_limit`. -/
def handle_type (page : PrimOracle) (text : Option String) :
    ExecResult × List Prim :=
  match page (Prim.keyboardType text) with
  | .ok _ => (⟨"success", "none", "Typed " ++ pyStr text⟩,
              [Prim.keyboardType text])
  | .error e => (⟨"failure", "tool_limit", "Failed to type: " ++ errStr e⟩,
                 [Prim.keyboardType text])

/-- The inner `except` of handle_search: the keyboard fallback strategy
(`keyboard.type(query)` then `keyboard.press("Enter")`), entered after any
exception in the primary strategy; `tr` is the trace accumulated so far. -/
def searchFallback (page : PrimOracle) (query : Option String)
    (tr : List Prim) : ExecResult × List Prim :=
  let pType := Prim.keyboardType query
  match page pType with
  | .error e =>
      (⟨"failure", "element_not_found", "Failed to search: " ++ errStr e⟩,
       tr ++ [pType])
  | .ok _ =>
      let pPress := Prim.keyboardPress (some "Enter")
      match page pPress with
      | .error e =>
          (⟨"failure", "element_not_found",
            "Failed to search: " ++ errStr e⟩, tr ++ [pType, pPress])
      | .ok _ =>
          (⟨"success", "none",
            "Searched for " ++ pyStr query ++ " (fallback)"⟩,
           tr ++ [pType, pPress])

/-- handle_search: primary strategy clicks the Google search combobox, fills
it, presses Enter; on any exception it falls back to `searchFallback`. -/
def handle_search (page : PrimOracle) (query : Option String) :
    ExecResult × List Prim :=
  let pClick := Prim.clickRoleName "combobox" "Search"
  match page pClick with
  | .error _ => searchFallback page query [pClick]
  | .ok _ =>
      let pFill := Prim.fillSearchBox query
      match page pFill with
      | .error _ => searchFallback page query [pClick, pFill]
      | .ok _ =>
          let pPress := Prim.keyboardPress (some "Enter")
          match page pPress with
          | .error _ => searchFallback page query [pClick, pFill, pPress]
          | .ok _ =>
              (⟨"success", "none", "Searched for " ++ pyStr query⟩,
               [pClick, pFill, pPress])

/-- handle_scroll: `direction.lower()` raises `AttributeError` when
`direction` is `None`, caught before any browser call; otherwise one
`mouse.wheel` call, with exceptions classified as `tool_limit`. -/
def handle_scroll (page : PrimOracle) (direction : Option String) :
    ExecResult × List Prim :=
  match direction with
  | none =>
      (⟨"failure", "tool_limit", "Failed to scroll: AttributeError"⟩, [])
  | some d =>
      let delta : Int := if d.toLower = "down" then 800 else -800
      match page (Prim.mouseWheel delta) with
      | .ok _ => (⟨"success", "none", "Scrolled " ++ d⟩,
                  [Prim.mouseWheel delta])
      | .error e =>
          (⟨"failure", "tool_limit", "Failed to scroll: " ++ errStr e⟩,
           [Prim.mouseWheel delta])

/-- handle_press_key: one `keyboard.press(key)` call; exceptions are
classified as `tool_limit`. -/
def handle_press_key (page : PrimOracle) (key : Option String) :
    ExecResult × List Prim :=
  match page (Prim.keyboardPress key) with
  | .ok _ => (⟨"success", "none", "Pressed " ++ pyStr key⟩,
              [Prim.keyboardPress key])
  | .error e =>
      (⟨"failure", "tool_limit", "Failed to press key: " ++ errStr e⟩,
       [Prim.keyboardPress key])

/-- handle_wait: one `asyncio.sleep(seconds)` call; exceptions are
classified as `tool_limit`. -/
def handle_wait (page : PrimOracle) (seconds : Option Nat) :
    ExecResult × List Prim :=
  match page (Prim.sleep seconds) with
  | .ok _ =>
      (⟨"success", "none", "Waited " ++ pyStr (seconds.map toString) ++ "s"⟩,
       [Prim.sleep seconds])
  | .error e =>
      (⟨"failure", "tool_limit", "Failed to wait: " ++ errStr e⟩,
       [Prim.sleep seconds])

/-- execute_action: routes a validated action to its handler via the
`handlers` dict; an unrecognised action name yields the `unknown` failure
dict without touching the browser.  The result is optional only because the
click handler can fall through and return `None`. -/
def execute_action (page : PrimOracle) (a : Action) :
    Option ExecResult × List Prim :=
  if a.action = "navigate" then
    let r := handle_navigate page a.args.url
    (some r.1, r.2)
  else if a.action = "click" then
    handle_click page a.args.role a.args.name
  else if a.action = "type" then
    let r := handle_type page a.args.text
    (some r.1, r.2)
  else if a.action = "search" then
    let r := handle_search page a.args.text
    (some r.1, r.2)
  else if a.action = "scroll" then
    let r := handle_scroll page a.args.direction
    (some r.1, r.2)
  else if a.action = "press_key" then
    let r := handle_press_key page a.args.key
    (some r.1, r.2)
  else if a.action = "wait" then
    let r := handle_wait page a.args.seconds
    (some r.1, r.2)
  else
    (some ⟨"failure", "unknown", "Unknown action: " ++ a.action⟩, [])

end ExecutionAgent

namespace Execution

/-!
The backend/execution package (models.py, handlers.py, executor.py) as shown
in the Integration Plan document.
-/

/-- `ExecutionOutput` (backend/execution/models.py).  `args` is the Python
dict the handler echoes back; values here are the optional strings the
handlers place in it.  `execution_time_ms` (wall-clock timing) is not
modelled. -/
structure ExecutionOutput where
  action : String
  args : List (String × Option String)
  status : String
  error_type : String
  message : String
deriving DecidableEq, Repr

/-- handle_click (backend/execution/handlers.py): the `if role and name` /
`elif role` / `elif name` chain performs at most one click, and the success
return sits after the chain inside the `try`, so when neither argument is
truthy the function performs no browser call and still returns a success
output.  Any exception is caught and classified as `element_not_found`. -/
def handle_click (page : PrimOracle) (role name : Option String) :
    ExecutionOutput × List Prim :=
  let attempt : Except PwError Unit × List Prim :=
    if truthy role ∧ truthy name then
      let p := Prim.clickRoleName (role.getD "") (name.getD "")
      (page p, [p])
    else if truthy role then
      let p := Prim.clickRole (role.getD "")
      (page p, [p])
    else if truthy name then
      let p := Prim.clickText (name.getD "")
      (page p, [p])
    else
      (.ok (), [])
  match attempt with
  | (.ok _, tr) =>
      (⟨"click", [("role", role), ("name", name)], "success", "none",
        "Clicked " ++ pyStr role ++ " " ++ pyStr name⟩, tr)
  | (.error e, tr) =>
      (⟨"click", [("role", role), ("name", name)], "failure",
        "element_not_found", errStr e⟩, tr)

/-- The output execute_step builds in its `except` clause
(backend/execution/executor.py). -/
def unknownFailure (e : PwError) : ExecutionOutput :=
  ⟨"unknown", [], "failure", "unknown", "Execution failed: " ++ errStr e⟩

/-- execute_step (backend/execution/executor.py): awaits
`translator.translate` then `dispatch_action`, both inside one `try`; any
exception from either produces the `unknown` failure output.  The two
awaited calls are modelled by their outcomes: `translated` is the
translator's result and `dispatchResult` maps the translated action to the
dispatcher's result, either of which may raise. -/
def execute_step (translated : Except PwError Action)
    (dispatchResult : Action → Except PwError ExecutionOutput) :
    ExecutionOutput :=
  match translated with
  | .error e => unknownFailure e
  | .ok action =>
      match dispatchResult action with
      | .error e => unknownFailure e
      | .ok result => result

end Execution

namespace Orch

/-!
The Orchestrator control loop, the VerificationAgent decision function and
the InteractionAgent formatting are defined in the repository only by role
prompts and by the design documents; no Python implementation of them is in
the repository.  The definitions below are therefore modelled from the spec
(sections 3, 4.1, 4.3, 4.5, 6, 7) and so marked.
-/

/-- Modelled from the spec: the `success | failure` outcome set shared by
`ExecutionRecord.status` and `VerificationDecision.verdict` (section 3); the
repository only declares the two literals in its JSON schemas. -/
inductive Outcome where
  | success
  | failure
deriving DecidableEq, Repr

/-- Modelled from the spec: the error taxonomy of section 7 as a type; the
repository declares no such shared enum (its two Literal enums are compared
with this taxonomy separately). -/
inductive ErrorKind where
  | none
  | timeout
  | element_not_found
  | not_interactable
  | detached
  | navigation_failed
  | upload_failed
  | unsupported_action
  | bad_command
  | ambiguous_step
  | tool_limit
  | insufficient_evidence
  | mismatch
  | blocked
  | unexpected_state
  | escalation_limit_exceeded
  | internal
deriving DecidableEq, Repr

/-- Modelled from the spec: `ExecutionRecord` (section 3); the repository
has only the ExecutionOutput JSON schema, not the record type the
Orchestrator stores. -/
structure ExecutionRecord where
  actionSummary : String
  status : Outcome
  error_kind : ErrorKind
  message : String
  duration : Nat
deriving DecidableEq, Repr

/-- Modelled from the spec: the `orchestration | fallback` handoff of a
VerificationDecision (section 3). -/
inductive Handoff where
  | orchestration
  | fallback
deriving DecidableEq, Repr

/-- Modelled from the spec: `VerificationDecision` (section 3); the
repository declares only its JSON schema in verification.prompt.md. -/
structure VerificationDecision where
  verdict : Outcome
  step_complete : Bool
  goal_complete : Bool
  error_kind : ErrorKind
  message : String
  handoff : Handoff
deriving DecidableEq, Repr

/-- The `update_type` enum of a FallbackPatch
(prompts/fallback.prompt.md Output Format). -/
inductive UpdateType where
  | revise_step
  | insert_step_before
  | request_context
  | abort
deriving DecidableEq, Repr

/-- `FallbackPatch` as declared by the fallback prompt's Output Format
(prompts/fallback.prompt.md), with `message_to_orchestration` as the
spec's `instruction` field. -/
structure FallbackPatch where
  update_type : UpdateType
  diagnosis : String
  proposed_step : Option String
  insert_step : Option String
  requested_context : List String
  instruction : String
deriving DecidableEq, Repr

/-- Modelled from the spec: the evidence the AFTER-state offers for the
current step's requirement (section 4.3); the repository delegates this
judgment to an LLM behind verification.prompt.md, so it is abstracted as a
three-valued input. -/
inductive Evidence where
  | satisfied
  | unsatisfied
  | ambiguous
deriving DecidableEq, Repr

/-- Modelled from the spec: the VerificationAgent decision function
(sections 4.3 and 7), whose judgment the repository implements only as an
LLM prompt.  AFTER-state evidence outranks the record's self-reported
status: success is emitted only on clearly satisfied evidence; a record
that claims success without satisfying evidence, and any ambiguous
evidence, yield failure with `insufficient_evidence`; a record that already
reported failure has its own error kind propagated.  `terminalStep` states
whether the current step is the plan's final one (goal_complete is tied to
it, section 4.3). -/
def verifyDecision (ev : Evidence) (terminalStep : Bool)
    (record : ExecutionRecord) : VerificationDecision :=
  match ev with
  | .satisfied =>
      ⟨.success, true, terminalStep, .none, "Step requirement met.",
       .orchestration⟩
  | .ambiguous =>
      ⟨.failure, false, false, .insufficient_evidence,
       "Evidence is insufficient to confirm success.", .fallback⟩
  | .unsatisfied =>
      if record.status = .success then
        ⟨.failure, false, false, .insufficient_evidence,
         "Action reported success but the AFTER-state shows no satisfying change.",
         .fallback⟩
      else
        ⟨.failure, false, false, record.error_kind,
         "Action failed and the step requirement is not met.", .fallback⟩

/-- Modelled from the spec: the session status of the Orchestrator state
machine (sections 4.1 and 6); FINISHED carries its terminal status and
ABORTED its error kind and diagnosis. -/
inductive SessionStatus where
  | running
  | goal_completed
  | needs_clarification (requested_context : List String)
  | aborted (kind : ErrorKind) (diagnosis : String)
deriving DecidableEq, Repr

/-- Modelled from the spec: one Trace tuple
(PlanStep, ExecutionRecord, VerificationDecision, FallbackPatch?)
(section 3). -/
structure TraceEntry where
  step : String
  record : ExecutionRecord
  decision : VerificationDecision
  patch : Option FallbackPatch
deriving DecidableEq, Repr

/-- Modelled from the spec: the Orchestrator-owned session state (sections
3 and 4.1): goal, plan, active-step cursor, per-position repair counters
(positions are stable indices), the current page state, the Trace and the
session status.  `Pg` is the opaque PageState type. -/
structure OrchState (Pg : Type) where
  goal : String
  plan : List String
  cursor : Nat
  counters : Nat → Nat
  page : Pg
  trace : List TraceEntry
  status : SessionStatus

/-- Modelled from the spec: the pluggable policy components (section 9):
the ExecutionAgent (translator plus dispatcher, returning a record and the
new page state), the VerificationAgent judgment and the FallbackAgent
diagnosis, all stateless functions. -/
structure Policies (Pg : Type) where
  exec : String → String → Pg → ExecutionRecord × Pg
  verify : String → String → ExecutionRecord → Pg → Pg → VerificationDecision
  fallback : String → String → VerificationDecision → ExecutionRecord → Pg →
    FallbackPatch

/-- Modelled from the spec: `insert_step_before` inserts the prerequisite
step immediately before the active position (section 4.1). -/
def insertStepBefore (plan : List String) (cursor : Nat) (stp : String) :
    List String :=
  plan.insertIdx cursor stp

/-- Modelled from the spec: the counters after inserting a fresh position
(counter 0) before `cursor`; existing positions keep their counters under
the shift (arena+index bookkeeping, section 9). -/
def insertCounter (counters : Nat → Nat) (cursor : Nat) : Nat → Nat :=
  fun i => if i < cursor then counters i
    else if i = cursor then 0
    else counters (i - 1)

/-- Modelled from the spec: bump one position's repair counter. -/
def bumpCounter (counters : Nat → Nat) (cursor n : Nat) : Nat → Nat :=
  fun i => if i = cursor then n else counters i

/-- Modelled from the spec: the text of the active plan step (section 4.1);
the cursor is in bounds whenever the loop consults it. -/
def activeStep {Pg : Type} (s : OrchState Pg) : String :=
  s.plan.getD s.cursor ""

/-- Modelled from the spec: the ExecutionAgent call of one loop iteration
(section 4.1 step 1), yielding the record and the AFTER page state. -/
def stepExec {Pg : Type} (P : Policies Pg) (s : OrchState Pg) :
    ExecutionRecord × Pg :=
  P.exec s.goal (activeStep s) s.page

/-- Modelled from the spec: the VerificationAgent call of one loop
iteration (section 4.1 step 2), applied to the record — also when the
record itself reports failure. -/
def stepDecision {Pg : Type} (P : Policies Pg) (s : OrchState Pg) :
    VerificationDecision :=
  P.verify s.goal (activeStep s) (stepExec P s).1 s.page (stepExec P s).2

/-- Modelled from the spec: the FallbackAgent call of one loop iteration
(section 4.1 step 4). -/
def stepPatch {Pg : Type} (P : Policies Pg) (s : OrchState Pg) :
    FallbackPatch :=
  P.fallback s.goal (activeStep s) (stepDecision P s) (stepExec P s).1
    (stepExec P s).2

/-- The trace tuple appended by one loop iteration. -/
def stepEntry {Pg : Type} (P : Policies Pg) (s : OrchState Pg)
    (patch : Option FallbackPatch) : TraceEntry :=
  ⟨activeStep s, (stepExec P s).1, stepDecision P s, patch⟩

/-- The diagnosis recorded on a forced escalation abort. -/
def escalationDiagnosis (cursor : Nat) : String :=
  "Repair attempts at step position " ++ toString cursor ++
    " exceeded the configured bound."

/-- Modelled from the spec: one iteration of the Orchestrator driving loop
(section 4.1), which the repository defines only in prose and prompts.
Execute the active step, verify, then advance on success or repair on
failure; every verification failure increments the failed position's
counter first, and when the counter exceeds `bound` the Orchestrator aborts
with `escalation_limit_exceeded` regardless of the FallbackAgent (which is
then not even consulted); otherwise the patch is applied
(revise / insert-before / request-context / abort).  A running state whose
cursor has moved past the last step is closed as goal_completed. -/
def stepOrch {Pg : Type} (bound : Nat) (P : Policies Pg)
    (s : OrchState Pg) : OrchState Pg :=
  match s.status with
  | .running =>
    if s.cursor < s.plan.length then
      if (stepDecision P s).verdict = .success ∧
          (stepDecision P s).step_complete = true then
        if (stepDecision P s).goal_complete then
          { s with page := (stepExec P s).2,
                   trace := s.trace ++ [stepEntry P s none],
                   status := .goal_completed }
        else
          { s with page := (stepExec P s).2,
                   trace := s.trace ++ [stepEntry P s none],
                   cursor := s.cursor + 1 }
      else
        if bound < s.counters s.cursor + 1 then
          { s with page := (stepExec P s).2,
                   trace := s.trace ++ [stepEntry P s none],
                   counters := bumpCounter s.counters s.cursor
                     (s.counters s.cursor + 1),
                   status := .aborted .escalation_limit_exceeded
                     (escalationDiagnosis s.cursor) }
        else
          match (stepPatch P s).update_type with
          | .revise_step =>
              { s with page := (stepExec P s).2,
                       trace := s.trace ++ [stepEntry P s (some (stepPatch P s))],
                       plan := s.plan.set s.cursor
                         ((stepPatch P s).proposed_step.getD (activeStep s)),
                       counters := bumpCounter s.counters s.cursor
                         (s.counters s.cursor + 1) }
          | .insert_step_before =>
              { s with page := (stepExec P s).2,
                       trace := s.trace ++ [stepEntry P s (some (stepPatch P s))],
                       plan := insertStepBefore s.plan s.cursor
                         ((stepPatch P s).insert_step.getD ""),
                       counters := insertCounter
                         (bumpCounter s.counters s.cursor
                           (s.counters s.cursor + 1)) s.cursor }
          | .request_context =>
              { s with page := (stepExec P s).2,
                       trace := s.trace ++ [stepEntry P s (some (stepPatch P s))],
                       status := .needs_clarification
                         (stepPatch P s).requested_context }
          | .abort =>
              { s with page := (stepExec P s).2,
                       trace := s.trace ++ [stepEntry P s (some (stepPatch P s))],
                       status := .aborted (stepDecision P s).error_kind
                         (stepPatch P s).diagnosis }
    else
      { s with status := .goal_completed }
  | _ => s

/-- Modelled from the spec: the driving loop run with fuel; it stops as
soon as the session leaves the running state. -/
def runOrch {Pg : Type} (bound : Nat) (P : Policies Pg) :
    Nat → OrchState Pg → OrchState Pg
  | 0, s => s
  | n + 1, s =>
      match s.status with
      | .running => runOrch bound P n (stepOrch bound P s)
      | _ => s

/-- Modelled from the spec: the initial session state for a goal and plan
(section 3): cursor at the first step, all repair counters zero, empty
trace. -/
def initState {Pg : Type} (goal : String) (plan : List String) (pg : Pg) :
    OrchState Pg :=
  ⟨goal, plan, 0, fun _ => 0, pg, [], .running⟩

/-- Termination measure of the driving loop under revise-only repair:
remaining positions weighted by the repair budget, minus the attempts
already spent at the active position. -/
def orchMeasure {Pg : Type} (bound : Nat) (s : OrchState Pg) : Nat :=
  (s.plan.length - s.cursor) * (bound + 2) -
    min (s.counters s.cursor) (bound + 1)

/-- Modelled from the spec: the user-facing response shapes of the
InteractionAgent (section 6, Option A / Option B). -/
inductive UserResponse where
  | finish (message : String) (data : String)
  | request (message : String) (requested_fields : List String)
deriving DecidableEq, Repr

/-- The sentence the terminal message carries on an escalation-limit abort
(section 7: it must explicitly state that the repair bound was exceeded). -/
def escalationNotice : String := "The repair attempt bound was exceeded."

/-- Modelled from the spec: the InteractionAgent-equivalent formatting of a
terminal session status (sections 4.5, 6 and 7), which the repository
defines only as interaction.prompt.md.  Every terminal status yields a
response: completion and abort use the finish shape (the abort message
summarises the diagnosis and, for an escalation-limit abort, states that
the repair bound was exceeded), clarification uses the request shape.  A
still-running session has no terminal output. -/
def formatTerminal (goal : String) (st : SessionStatus) :
    Option UserResponse :=
  match st with
  | .running => none
  | .goal_completed =>
      some (.finish ("Goal completed: " ++ goal) "")
  | .needs_clarification ctx =>
      some (.request "Additional information is required to continue." ctx)
  | .aborted kind diagnosis =>
      if kind = .escalation_limit_exceeded then
        some (.finish
          (("Task aborted: " ++ diagnosis ++ " ") ++ escalationNotice ++ "")
          "")
      else
        some (.finish ("Task aborted: " ++ diagnosis) "")

/-- An execution record of a failed click, used to instantiate theorems at
concrete inputs. -/
def cRecord : ExecutionRecord :=
  ⟨"click Submit", .failure, .element_not_found, "Could not click element", 5⟩

/-- A concrete deterministic policy triple over a trivial page type: every
execution attempt fails, verification judges the evidence unsatisfied, and
the FallbackAgent always proposes a revision. -/
def cPolicies : Policies Unit :=
  ⟨fun _ _ pg => (cRecord, pg),
   fun _ _ record _ _ => verifyDecision .unsatisfied false record,
   fun _ stp _ _ _ =>
     ⟨.revise_step, "target not found",
      some ("Scroll further and retry: " ++ stp), none, [],
      "revise the step"⟩⟩

/-- A concrete one-step session start. -/
def cInit : OrchState Unit := initState "Submit the form" ["Click Submit"] ()

end Orch

/-- A page oracle on which every primitive call succeeds. -/
def oracleOk : PrimOracle := fun _ => .ok ()

/-- A page oracle on which every primitive call exceeds its timeout. -/
def oracleTimeout : PrimOracle :=
  fun _ => .error (.timeoutError "Timeout 10000ms exceeded.")

/-- A page oracle for a page with no Google search box: clicking the
combobox raises, every keyboard primitive succeeds. -/
def oracleNoSearchBox : PrimOracle := fun p =>
  match p with
  | .clickRoleName _ _ => .error (.exn "combobox not found")
  | _ => .ok ()

/-- The primary search strategy of handle_search succeeds on a page:
combobox click, fill and Enter all return normally. -/
def primaryOk (page : PrimOracle) (q : Option String) : Prop :=
  page (Prim.clickRoleName "combobox" "Search") = .ok () ∧
  page (Prim.fillSearchBox q) = .ok () ∧
  page (Prim.keyboardPress (some "Enter")) = .ok ()

/-- The keyboard fallback strategy of handle_search succeeds on a page:
typing the query and pressing Enter both return normally. -/
def fallbackOk (page : PrimOracle) (q : Option String) : Prop :=
  page (Prim.keyboardType q) = .ok () ∧
  page (Prim.keyboardPress (some "Enter")) = .ok ()

/-!  Theorems.  First, branch equations for the driving loop. -/

/-- Case analysis for oracle outcomes: a primitive call either returned
normally or raised some exception. -/
theorem exceptCases (x : Except PwError Unit) :
    x = .ok () ∨ ∃ e, x = .error e :=
  match x with
  | .ok () => Or.inl rfl
  | .error e => Or.inr ⟨e, rfl⟩

namespace Orch

theorem stepOrch_stopped {Pg : Type} (bound : Nat) (P : Policies Pg)
    (s : OrchState Pg) (hs : s.status ≠ .running) :
    stepOrch bound P s = s := by
  unfold stepOrch
  cases h : s.status <;> simp_all

theorem stepOrch_exhausted {Pg : Type} (bound : Nat) (P : Policies Pg)
    (s : OrchState Pg) (hs : s.status = .running)
    (hc : ¬ s.cursor < s.plan.length) :
    stepOrch bound P s = { s with status := .goal_completed } := by
  unfold stepOrch
  rw [hs]
  simp [hc]

theorem stepOrch_goal_done {Pg : Type} (bound : Nat) (P : Policies Pg)
    (s : OrchState Pg) (hs : s.status = .running)
    (hc : s.cursor < s.plan.length)
    (hv : (stepDecision P s).verdict = .success ∧
      (stepDecision P s).step_complete = true)
    (hg : (stepDecision P s).goal_complete = true) :
    stepOrch bound P s =
      { s with page := (stepExec P s).2,
               trace := s.trace ++ [stepEntry P s none],
               status := .goal_completed } := by
  unfold stepOrch
  rw [hs]
  simp [hc, hv.1, hv.2, hg]

theorem stepOrch_advance {Pg : Type} (bound : Nat) (P : Policies Pg)
    (s : OrchState Pg) (hs : s.status = .running)
    (hc : s.cursor < s.plan.length)
    (hv : (stepDecision P s).verdict = .success ∧
      (stepDecision P s).step_complete = true)
    (hg : (stepDecision P s).goal_complete = false) :
    stepOrch bound P s =
      { s with page := (stepExec P s).2,
               trace := s.trace ++ [stepEntry P s none],
               cursor := s.cursor + 1 } := by
  unfold stepOrch
  rw [hs]
  simp [hc, hv.1, hv.2, hg]

theorem stepOrch_forced_abort {Pg : Type} (bound : Nat) (P : Policies Pg)
    (s : OrchState Pg) (hs : s.status = .running)
    (hc : s.cursor < s.plan.length)
    (hv : ¬ ((stepDecision P s).verdict = .success ∧
      (stepDecision P s).step_complete = true))
    (hb : bound < s.counters s.cursor + 1) :
    stepOrch bound P s =
      { s with page := (stepExec P s).2,
               trace := s.trace ++ [stepEntry P s none],
               counters := bumpCounter s.counters s.cursor
                 (s.counters s.cursor + 1),
               status := .aborted .escalation_limit_exceeded
                 (escalationDiagnosis s.cursor) } := by
  unfold stepOrch
  rw [hs]
  simp [hc, hv, hb]

theorem stepOrch_repair {Pg : Type} (bound : Nat) (P : Policies Pg)
    (s : OrchState Pg) (hs : s.status = .running)
    (hc : s.cursor < s.plan.length)
    (hv : ¬ ((stepDecision P s).verdict = .success ∧
      (stepDecision P s).step_complete = true))
    (hb : ¬ bound < s.counters s.cursor + 1) :
    stepOrch bound P s =
      match (stepPatch P s).update_type with
      | .revise_step =>
          { s with page := (stepExec P s).2,
                   trace := s.trace ++ [stepEntry P s (some (stepPatch P s))],
                   plan := s.plan.set s.cursor
                     ((stepPatch P s).proposed_step.getD (activeStep s)),
                   counters := bumpCounter s.counters s.cursor
                     (s.counters s.cursor + 1) }
      | .insert_step_before =>
          { s with page := (stepExec P s).2,
                   trace := s.trace ++ [stepEntry P s (some (stepPatch P s))],
                   plan := insertStepBefore s.plan s.cursor
                     ((stepPatch P s).insert_step.getD ""),
                   counters := insertCounter
                     (bumpCounter s.counters s.cursor
                       (s.counters s.cursor + 1)) s.cursor }
      | .request_context =>
          { s with page := (stepExec P s).2,
                   trace := s.trace ++ [stepEntry P s (some (stepPatch P s))],
                   status := .needs_clarification
                     (stepPatch P s).requested_context }
      | .abort =>
          { s with page := (stepExec P s).2,
                   trace := s.trace ++ [stepEntry P s (some (stepPatch P s))],
                   status := .aborted (stepDecision P s).error_kind
                     (stepPatch P s).diagnosis } := by
  unfold stepOrch
  rw [hs]
  simp [hc, hv, hb]

theorem runOrch_stopped {Pg : Type} (bound : Nat) (P : Policies Pg)
    (n : Nat) (s : OrchState Pg) (hs : s.status ≠ .running) :
    runOrch bound P n s = s := by
  cases n with
  | zero => rfl
  | succ n =>
      unfold runOrch
      cases h : s.status <;> simp_all

theorem runOrch_succ_running {Pg : Type} (bound : Nat) (P : Policies Pg)
    (n : Nat) (s : OrchState Pg) (hs : s.status = .running) :
    runOrch bound P (n + 1) s = runOrch bound P n (stepOrch bound P s) := by
  conv_lhs => unfold runOrch
  rw [hs]

theorem runOrch_add {Pg : Type} (bound : Nat) (P : Policies Pg)
    (n m : Nat) (s : OrchState Pg) :
    runOrch bound P (n + m) s = runOrch bound P m (runOrch bound P n s) := by
  induction n generalizing s with
  | zero => simp [runOrch]
  | succ n ih =>
      by_cases hs : s.status = .running
      · rw [Nat.succ_add, runOrch_succ_running bound P (n + m) s hs,
            runOrch_succ_running bound P n s hs]
        exact ih (stepOrch bound P s)
      · rw [runOrch_stopped bound P (n + 1 + m) s hs,
            runOrch_stopped bound P (n + 1) s hs,
            runOrch_stopped bound P m s hs]

end Orch

/-- C10: a click action with both `role` and `name` absent performs no
browser interaction (empty primitive trace) yet the handlers.py
`handle_click` reports success with `error_type` none, while the
dict-returning duplicate in execution_agent.py falls through its branch
chain and returns no result (`None`). -/
theorem noop_click_reported_as_success (page : PrimOracle) :
    Execution.handle_click page none none =
      (⟨"click", [("role", none), ("name", none)], "success", "none",
        "Clicked None None"⟩, []) ∧
    ExecutionAgent.handle_click page none none = (none, []) := by
  refine ⟨?_, ?_⟩ <;> rfl

/-- C9: execute_step catches every exception raised by the translator or
the dispatcher and returns the `unknown` failure output (action "unknown",
empty args, status "failure", error_type "unknown") instead of
propagating the exception. -/
theorem execute_step_never_propagates :
    (∀ (e : PwError)
       (dispatchResult : Action → Except PwError Execution.ExecutionOutput),
       Execution.execute_step (.error e) dispatchResult =
         Execution.unknownFailure e) ∧
    (∀ (a : Action)
       (dispatchResult : Action → Except PwError Execution.ExecutionOutput)
       (e : PwError), dispatchResult a = .error e →
       Execution.execute_step (.ok a) dispatchResult =
         Execution.unknownFailure e) ∧
    (∀ e : PwError, (Execution.unknownFailure e).action = "unknown" ∧
       (Execution.unknownFailure e).args = [] ∧
       (Execution.unknownFailure e).status = "failure" ∧
       (Execution.unknownFailure e).error_type = "unknown") := by
  refine ⟨fun e d => rfl, fun a d e h => ?_, fun e => ⟨rfl, rfl, rfl, rfl⟩⟩
  simp [Execution.execute_step, h]

/-- Witness for C9: a concrete dispatcher exception is swallowed and turned
into the unknown-failure output. -/
theorem execute_step_never_propagates_witness :
    (fun _ : Action => (.error (.exn "boom") :
        Except PwError Execution.ExecutionOutput))
        ⟨"click", ActionArgs.empty⟩ = .error (.exn "boom") ∧
    Execution.execute_step (.ok ⟨"click", ActionArgs.empty⟩)
      (fun _ => .error (.exn "boom")) =
      Execution.unknownFailure (.exn "boom") :=
  ⟨rfl, execute_step_never_propagates.2.1 ⟨"click", ActionArgs.empty⟩
    (fun _ => .error (.exn "boom")) (.exn "boom") rfl⟩

/-- Counterexample for C2: the error enums found in the code are not the
single shared 17-kind taxonomy the spec states: `navigation_blocked` is an
ExecutionOutput error type outside the taxonomy, `execution_failure` is a
VerificationDecision error type outside the taxonomy, and the two code
enums differ from each other and from the taxonomy. -/
theorem error_taxonomy_not_shared :
    ("navigation_blocked" ∈ executionErrorTypes ∧
      "navigation_blocked" ∉ specErrorTaxonomy ∧
      "navigation_blocked" ∉ verificationErrorTypes) ∧
    ("execution_failure" ∈ verificationErrorTypes ∧
      "execution_failure" ∉ specErrorTaxonomy ∧
      "execution_failure" ∉ executionErrorTypes) ∧
    executionErrorTypes ≠ verificationErrorTypes ∧
    executionErrorTypes ≠ specErrorTaxonomy ∧
    verificationErrorTypes ≠ specErrorTaxonomy := by
  decide

/-- Counterexample for C4: a navigation timeout is classified as
`navigation_blocked`, not `timeout`; indeed the execution layer has no
`timeout` error kind at all. -/
theorem timeout_not_its_own_kind :
    (ExecutionAgent.handle_navigate oracleTimeout
        (some "https://example.com")).1.error_type = "navigation_blocked" ∧
    "navigation_blocked" ≠ "timeout" ∧
    "timeout" ∉ executionErrorTypes := by
  decide

/-- Counterexample for C5: handle_search does retry internally: on a page
whose combobox click raises, the primary strategy fails yet the very same
invocation runs a second keyboard strategy and reports success, so a
failing interaction does not yield a single failure record and two
interaction strategies run in one invocation. -/
theorem search_retries_second_strategy :
    oracleNoSearchBox (Prim.clickRoleName "combobox" "Search") =
      .error (.exn "combobox not found") ∧
    ExecutionAgent.handle_search oracleNoSearchBox (some "nike shoes") =
      (⟨"success", "none", "Searched for nike shoes (fallback)"⟩,
       [Prim.clickRoleName "combobox" "Search",
        Prim.keyboardType (some "nike shoes"),
        Prim.keyboardPress (some "Enter")]) :=
  ⟨rfl, rfl⟩

/-- C4 (amended): exceeding an action's timeout raises a Playwright
exception that the handler's catch-all `except` classifies exactly like any
other exception — `navigation_blocked` for navigate, `element_not_found`
for click, `tool_limit` for type — not a dedicated `timeout` kind; the
dispatcher performs the single handler invocation with no automatic retry
(one `goto` attempt even on failure), and the orchestration loop passes the
resulting record — failed or not — to the VerificationAgent, whose decision
is appended to the trace. -/
theorem timeout_generic_kind :
    (∀ (page : PrimOracle) (url : Option String) (e : PwError),
       page (Prim.goto url) = .error e →
       ExecutionAgent.handle_navigate page url =
         (⟨"failure", "navigation_blocked",
           "Failed to navigate: " ++ errStr e⟩, [Prim.goto url])) ∧
    (∀ (page : PrimOracle) (role name : Option String) (e : PwError),
       truthy role = true → truthy name = true →
       page (Prim.clickRoleName (role.getD "") (name.getD "")) = .error e →
       ExecutionAgent.handle_click page role name =
         (some ⟨"failure", "element_not_found",
           "Could not click element: " ++ errStr e⟩,
          [Prim.clickRoleName (role.getD "") (name.getD "")])) ∧
    (∀ (page : PrimOracle) (text : Option String) (e : PwError),
       page (Prim.keyboardType text) = .error e →
       (ExecutionAgent.handle_type page text).1.error_type = "tool_limit") ∧
    (∀ (page : PrimOracle) (a : Action), a.action = "navigate" →
       (ExecutionAgent.execute_action page a).2 = [Prim.goto a.args.url]) ∧
    (∀ (Pg : Type) (bound : Nat) (P : Orch.Policies Pg)
       (s : Orch.OrchState Pg),
       s.status = .running → s.cursor < s.plan.length →
       ∃ patch, (Orch.stepOrch bound P s).trace =
         s.trace ++ [Orch.stepEntry P s patch]) := by
  refine ⟨?_, ?_, ?_, ?_, ?_⟩
  · intro page url e h
    simp [ExecutionAgent.handle_navigate, h]
  · intro page role name e hr hn h
    simp [ExecutionAgent.handle_click, hr, hn, h]
  · intro page text e h
    simp [ExecutionAgent.handle_type, h]
  · intro page a h
    rcases exceptCases (page (Prim.goto a.args.url)) with hp | ⟨e, hp⟩ <;>
      simp [ExecutionAgent.execute_action, ExecutionAgent.handle_navigate,
        h, hp]
  · intro Pg bound P s hs hc
    by_cases hv : (Orch.stepDecision P s).verdict = .success ∧
        (Orch.stepDecision P s).step_complete = true
    · cases hg : (Orch.stepDecision P s).goal_complete
      · exact ⟨none, by rw [Orch.stepOrch_advance bound P s hs hc hv hg]⟩
      · exact ⟨none, by rw [Orch.stepOrch_goal_done bound P s hs hc hv hg]⟩
    · by_cases hb : bound < s.counters s.cursor + 1
      · exact ⟨none, by rw [Orch.stepOrch_forced_abort bound P s hs hc hv hb]⟩
      · rw [Orch.stepOrch_repair bound P s hs hc hv hb]
        cases hp : (Orch.stepPatch P s).update_type <;>
          exact ⟨some (Orch.stepPatch P s), rfl⟩

/-- Witness for C4 (amended): a concrete timed-out navigation yields the
navigation_blocked failure record with a single goto attempt. -/
theorem timeout_generic_kind_witness :
    oracleTimeout (Prim.goto (some "https://example.com")) =
      .error (.timeoutError "Timeout 10000ms exceeded.") ∧
    ExecutionAgent.handle_navigate oracleTimeout
        (some "https://example.com") =
      (⟨"failure", "navigation_blocked",
        "Failed to navigate: " ++
          errStr (.timeoutError "Timeout 10000ms exceeded.")⟩,
       [Prim.goto (some "https://example.com")]) :=
  ⟨rfl, timeout_generic_kind.1 oracleTimeout (some "https://example.com")
    (.timeoutError "Timeout 10000ms exceeded.") rfl⟩

/-- C5 (amended): every handler except search attempts its browser
primitive at most once per invocation (no internal retries), in both
handler sets; handle_search however runs the primary combobox strategy and,
exactly when some primary call raises, one keyboard fallback strategy in
the same invocation, succeeding iff the primary or the fallback strategy
succeeds; retries of a step remain the Orchestrator/FallbackAgent's job. -/
theorem handlers_single_attempt :
    (∀ page url, (ExecutionAgent.handle_navigate page url).2.length = 1) ∧
    (∀ page role name,
      (ExecutionAgent.handle_click page role name).2.length ≤ 1) ∧
    (∀ page text, (ExecutionAgent.handle_type page text).2.length = 1) ∧
    (∀ page d, (ExecutionAgent.handle_scroll page d).2.length ≤ 1) ∧
    (∀ page k, (ExecutionAgent.handle_press_key page k).2.length = 1) ∧
    (∀ page sec, (ExecutionAgent.handle_wait page sec).2.length = 1) ∧
    (∀ page role name,
      (Execution.handle_click page role name).2.length ≤ 1) ∧
    (∀ page q, ((ExecutionAgent.handle_search page q).1.status = "success" ↔
      primaryOk page q ∨ fallbackOk page q)) ∧
    (∀ page q, ((ExecutionAgent.handle_search page q).2 =
        [Prim.clickRoleName "combobox" "Search", Prim.fillSearchBox q,
         Prim.keyboardPress (some "Enter")] ↔ primaryOk page q)) ∧
    (∀ page q, (Prim.keyboardType q ∈ (ExecutionAgent.handle_search page q).2
      ↔ ¬ primaryOk page q)) := by
  have searchKey : ∀ (page : PrimOracle) (q : Option String),
      ((ExecutionAgent.handle_search page q).1.status = "success" ↔
        primaryOk page q ∨ fallbackOk page q) ∧
      ((ExecutionAgent.handle_search page q).2 =
        [Prim.clickRoleName "combobox" "Search", Prim.fillSearchBox q,
         Prim.keyboardPress (some "Enter")] ↔ primaryOk page q) ∧
      (Prim.keyboardType q ∈ (ExecutionAgent.handle_search page q).2 ↔
        ¬ primaryOk page q) := by
    intro page q
    rcases exceptCases (page (Prim.clickRoleName "combobox" "Search")) with
      h1 | ⟨e1, h1⟩
    · rcases exceptCases (page (Prim.fillSearchBox q)) with h2 | ⟨e2, h2⟩
      · rcases exceptCases (page (Prim.keyboardPress (some "Enter"))) with
          h3 | ⟨e3, h3⟩
        · simp [ExecutionAgent.handle_search, h1, h2, h3, primaryOk,
            fallbackOk]
        · rcases exceptCases (page (Prim.keyboardType q)) with h4 | ⟨e4, h4⟩
          · simp [ExecutionAgent.handle_search,
              ExecutionAgent.searchFallback, h1, h2, h3, h4, primaryOk,
              fallbackOk]
          · simp [ExecutionAgent.handle_search,
              ExecutionAgent.searchFallback, h1, h2, h3, h4, primaryOk,
              fallbackOk]
      · rcases exceptCases (page (Prim.keyboardType q)) with h4 | ⟨e4, h4⟩
        · rcases exceptCases (page (Prim.keyboardPress (some "Enter"))) with
            h3 | ⟨e3, h3⟩
          · simp [ExecutionAgent.handle_search,
              ExecutionAgent.searchFallback, h1, h2, h3, h4, primaryOk,
              fallbackOk]
          · simp [ExecutionAgent.handle_search,
              ExecutionAgent.searchFallback, h1, h2, h3, h4, primaryOk,
              fallbackOk]
        · simp [ExecutionAgent.handle_search,
            ExecutionAgent.searchFallback, h1, h2, h4, primaryOk,
            fallbackOk]
    · rcases exceptCases (page (Prim.keyboardType q)) with h4 | ⟨e4, h4⟩
      · rcases exceptCases (page (Prim.keyboardPress (some "Enter"))) with
          h3 | ⟨e3, h3⟩
        · simp [ExecutionAgent.handle_search,
            ExecutionAgent.searchFallback, h1, h3, h4, primaryOk,
            fallbackOk]
        · simp [ExecutionAgent.handle_search,
            ExecutionAgent.searchFallback, h1, h3, h4, primaryOk,
            fallbackOk]
      · simp [ExecutionAgent.handle_search, ExecutionAgent.searchFallback,
          h1, h4, primaryOk, fallbackOk]
  refine ⟨?_, ?_, ?_, ?_, ?_, ?_, ?_,
    fun page q => (searchKey page q).1, fun page q => (searchKey page q).2.1,
    fun page q => (searchKey page q).2.2⟩
  · intro page url
    rcases exceptCases (page (Prim.goto url)) with h | ⟨e, h⟩ <;>
      simp [ExecutionAgent.handle_navigate, h]
  · intro page role name
    unfold ExecutionAgent.handle_click
    split_ifs with hA hB hC
    · rcases exceptCases
          (page (Prim.clickRoleName (role.getD "") (name.getD ""))) with
        h | ⟨e, h⟩ <;> simp [h]
    · rcases exceptCases (page (Prim.clickRole (role.getD ""))) with
        h | ⟨e, h⟩ <;> simp [h]
    · rcases exceptCases (page (Prim.clickText (name.getD ""))) with
        h | ⟨e, h⟩ <;> simp [h]
    · simp
  · intro page text
    rcases exceptCases (page (Prim.keyboardType text)) with h | ⟨e, h⟩ <;>
      simp [ExecutionAgent.handle_type, h]
  · intro page d
    cases d with
    | none => simp [ExecutionAgent.handle_scroll]
    | some d =>
        rcases exceptCases
            (page (Prim.mouseWheel (if d.toLower = "down" then 800 else -800)))
          with h | ⟨e, h⟩ <;> simp [ExecutionAgent.handle_scroll, h]
  · intro page k
    rcases exceptCases (page (Prim.keyboardPress k)) with h | ⟨e, h⟩ <;>
      simp [ExecutionAgent.handle_press_key, h]
  · intro page sec
    rcases exceptCases (page (Prim.sleep sec)) with h | ⟨e, h⟩ <;>
      simp [ExecutionAgent.handle_wait, h]
  · intro page role name
    unfold Execution.handle_click
    split_ifs with hA hB hC
    · rcases exceptCases
          (page (Prim.clickRoleName (role.getD "") (name.getD ""))) with
        h | ⟨e, h⟩ <;> simp [h]
    · rcases exceptCases (page (Prim.clickRole (role.getD ""))) with
        h | ⟨e, h⟩ <;> simp [h]
    · rcases exceptCases (page (Prim.clickText (name.getD ""))) with
        h | ⟨e, h⟩ <;> simp [h]
    · simp

/-- First components of equal pairs with `some` results agree. -/
theorem someFstEq {α β : Type} {x r : α} {y tr : β}
    (h : ((some x : Option α), y) = (some r, tr)) : x = r := by
  injection h with h1 h2
  injection h1

/-- C2 (amended): each record type has its own error enum rather than one
shared taxonomy: every result the execution layer produces draws its
error_type from the six-kind execution enum (none, element_not_found,
ambiguous_step, tool_limit, navigation_blocked, unknown), the
VerificationDecision schema declares its own six-kind enum, and the two
enums agree only on `none`. -/
theorem record_specific_error_enums :
    (∀ (page : PrimOracle) (a : Action) (r : ExecutionAgent.ExecResult)
       (tr : List Prim),
       ExecutionAgent.execute_action page a = (some r, tr) →
       r.error_type ∈ executionErrorTypes) ∧
    (∀ (page : PrimOracle) (role name : Option String),
       (Execution.handle_click page role name).1.error_type ∈
         executionErrorTypes) ∧
    executionErrorTypes.inter verificationErrorTypes = ["none"] := by
  have sfMem : ∀ (page : PrimOracle) (q : Option String) (tr : List Prim),
      (ExecutionAgent.searchFallback page q tr).1.error_type ∈
        executionErrorTypes := by
    intro page q tr
    rcases exceptCases (page (Prim.keyboardType q)) with h4 | ⟨e4, h4⟩
    · rcases exceptCases (page (Prim.keyboardPress (some "Enter"))) with
        h3 | ⟨e3, h3⟩ <;>
        simp [ExecutionAgent.searchFallback, h4, h3, executionErrorTypes]
    · simp [ExecutionAgent.searchFallback, h4, executionErrorTypes]
  have searchMem : ∀ (page : PrimOracle) (q : Option String),
      (ExecutionAgent.handle_search page q).1.error_type ∈
        executionErrorTypes := by
    intro page q
    rcases exceptCases (page (Prim.clickRoleName "combobox" "Search")) with
      h1 | ⟨e1, h1⟩
    · rcases exceptCases (page (Prim.fillSearchBox q)) with h2 | ⟨e2, h2⟩
      · rcases exceptCases (page (Prim.keyboardPress (some "Enter"))) with
          h3 | ⟨e3, h3⟩
        · simp [ExecutionAgent.handle_search, h1, h2, h3,
            executionErrorTypes]
        · simp only [ExecutionAgent.handle_search, h1, h2, h3]
          exact sfMem page q _
      · simp only [ExecutionAgent.handle_search, h1, h2]
        exact sfMem page q _
    · simp only [ExecutionAgent.handle_search, h1]
      exact sfMem page q _
  have clickMem : ∀ (page : PrimOracle) (role name : Option String)
      (r : ExecutionAgent.ExecResult) (tr : List Prim),
      ExecutionAgent.handle_click page role name = (some r, tr) →
      r.error_type ∈ executionErrorTypes := by
    intro page role name r tr h
    unfold ExecutionAgent.handle_click at h
    split_ifs at h with hA hB hC
    · rcases exceptCases
          (page (Prim.clickRoleName (role.getD "") (name.getD ""))) with
        hp | ⟨e, hp⟩ <;> simp only [hp] at h <;>
        (rw [← someFstEq h]; simp [executionErrorTypes])
    · rcases exceptCases (page (Prim.clickRole (role.getD ""))) with
        hp | ⟨e, hp⟩ <;> simp only [hp] at h <;>
        (rw [← someFstEq h]; simp [executionErrorTypes])
    · rcases exceptCases (page (Prim.clickText (name.getD ""))) with
        hp | ⟨e, hp⟩ <;> simp only [hp] at h <;>
        (rw [← someFstEq h]; simp [executionErrorTypes])
    · simp at h
  refine ⟨?_, ?_, by decide⟩
  · intro page a r tr h
    unfold ExecutionAgent.execute_action at h
    split_ifs at h
    · rw [← someFstEq h]
      rcases exceptCases (page (Prim.goto a.args.url)) with hp | ⟨e, hp⟩ <;>
        simp [ExecutionAgent.handle_navigate, hp, executionErrorTypes]
    · exact clickMem page a.args.role a.args.name r tr h
    · rw [← someFstEq h]
      rcases exceptCases (page (Prim.keyboardType a.args.text)) with
        hp | ⟨e, hp⟩ <;>
        simp [ExecutionAgent.handle_type, hp, executionErrorTypes]
    · rw [← someFstEq h]
      exact searchMem page a.args.text
    · rw [← someFstEq h]
      cases hd : a.args.direction with
      | none => simp [ExecutionAgent.handle_scroll, executionErrorTypes]
      | some d =>
          rcases exceptCases (page (Prim.mouseWheel
              (if d.toLower = "down" then 800 else -800))) with
            hp | ⟨e, hp⟩ <;>
            simp [ExecutionAgent.handle_scroll, hp, executionErrorTypes]
    · rw [← someFstEq h]
      rcases exceptCases (page (Prim.keyboardPress a.args.key)) with
        hp | ⟨e, hp⟩ <;>
        simp [ExecutionAgent.handle_press_key, hp, executionErrorTypes]
    · rw [← someFstEq h]
      rcases exceptCases (page (Prim.sleep a.args.seconds)) with
        hp | ⟨e, hp⟩ <;>
        simp [ExecutionAgent.handle_wait, hp, executionErrorTypes]
    · rw [← someFstEq h]
      simp [executionErrorTypes]
  · intro page role name
    unfold Execution.handle_click
    split_ifs with hA hB hC
    · rcases exceptCases
          (page (Prim.clickRoleName (role.getD "") (name.getD ""))) with
        h | ⟨e, h⟩ <;> simp [h, executionErrorTypes]
    · rcases exceptCases (page (Prim.clickRole (role.getD ""))) with
        h | ⟨e, h⟩ <;> simp [h, executionErrorTypes]
    · rcases exceptCases (page (Prim.clickText (name.getD ""))) with
        h | ⟨e, h⟩ <;> simp [h, executionErrorTypes]
    · simp [executionErrorTypes]

/-- Witness for C2 (amended): a concrete timed-out navigation dispatch
produces a result whose error_type sits in the execution enum. -/
theorem record_specific_error_enums_witness :
    ExecutionAgent.execute_action oracleTimeout ⟨"navigate", ActionArgs.empty⟩ =
      (some ⟨"failure", "navigation_blocked",
        "Failed to navigate: Timeout 10000ms exceeded."⟩, [Prim.goto none]) ∧
    "navigation_blocked" ∈ executionErrorTypes :=
  ⟨rfl, record_specific_error_enums.1 oracleTimeout
    ⟨"navigate", ActionArgs.empty⟩
    ⟨"failure", "navigation_blocked",
      "Failed to navigate: Timeout 10000ms exceeded."⟩
    [Prim.goto none] rfl⟩

/-- C3: AFTER-state evidence outranks the record's self-reported status:
whenever the record claims success but the AFTER-state evidence does not
satisfy the step, the decision is failure with insufficient_evidence;
success is only ever emitted on satisfied evidence (fail-closed); a
decision is emitted for every input, and every failure decision is handed
off to fallback. -/
theorem verification_fail_closed :
    (∀ (ev : Orch.Evidence) (ts : Bool) (r : Orch.ExecutionRecord),
       r.status = .success → ev ≠ .satisfied →
       (Orch.verifyDecision ev ts r).verdict = .failure ∧
       (Orch.verifyDecision ev ts r).error_kind = .insufficient_evidence) ∧
    (∀ (ev : Orch.Evidence) (ts : Bool) (r : Orch.ExecutionRecord),
       (Orch.verifyDecision ev ts r).verdict = .success →
       ev = .satisfied) ∧
    (∀ (ev : Orch.Evidence) (ts : Bool) (r : Orch.ExecutionRecord),
       (Orch.verifyDecision ev ts r).verdict = .success ∨
       (Orch.verifyDecision ev ts r).verdict = .failure) ∧
    (∀ (ev : Orch.Evidence) (ts : Bool) (r : Orch.ExecutionRecord),
       (Orch.verifyDecision ev ts r).verdict = .failure →
       (Orch.verifyDecision ev ts r).handoff = .fallback) := by
  refine ⟨?_, ?_, ?_, ?_⟩
  · intro ev ts r hr hev
    cases ev with
    | satisfied => exact absurd rfl hev
    | ambiguous => exact ⟨rfl, rfl⟩
    | unsatisfied => simp [Orch.verifyDecision, hr]
  · intro ev ts r h
    cases ev with
    | satisfied => rfl
    | ambiguous => simp [Orch.verifyDecision] at h
    | unsatisfied =>
        by_cases hr : r.status = Orch.Outcome.success <;>
          simp [Orch.verifyDecision, hr] at h
  · intro ev ts r
    cases ev with
    | satisfied => exact Or.inl rfl
    | ambiguous => exact Or.inr rfl
    | unsatisfied =>
        by_cases hr : r.status = Orch.Outcome.success <;>
          simp [Orch.verifyDecision, hr]
  · intro ev ts r h
    cases ev with
    | satisfied => simp [Orch.verifyDecision] at h
    | ambiguous => rfl
    | unsatisfied =>
        by_cases hr : r.status = Orch.Outcome.success <;>
          simp [Orch.verifyDecision, hr]

/-- Witness for C3: a record that self-reports success with unsatisfying
AFTER-state evidence is judged failure / insufficient_evidence. -/
theorem verification_fail_closed_witness :
    (⟨"click Submit", Orch.Outcome.success, Orch.ErrorKind.none, "ok", 1⟩ :
      Orch.ExecutionRecord).status = Orch.Outcome.success ∧
    (Orch.verifyDecision .unsatisfied false
        ⟨"click Submit", .success, .none, "ok", 1⟩).verdict = .failure ∧
    (Orch.verifyDecision .unsatisfied false
        ⟨"click Submit", .success, .none, "ok", 1⟩).error_kind =
      .insufficient_evidence :=
  ⟨rfl,
   (verification_fail_closed.1 .unsatisfied false
     ⟨"click Submit", .success, .none, "ok", 1⟩ rfl (by decide)).1,
   (verification_fail_closed.1 .unsatisfied false
     ⟨"click Submit", .success, .none, "ok", 1⟩ rfl (by decide)).2⟩

/-- C7: insert_step_before (applied at a cursor inside the plan) increases
the plan length by exactly one and leaves every step before the insertion
point untouched; more generally, one loop iteration leaves the plan
unchanged, revises exactly the active position, or inserts exactly one step
before it — steps are never reordered or deleted — and the active step
pointer only moves forward or stays in place. -/
theorem plan_patch_integrity :
    (∀ (plan : List String) (cursor : Nat) (stp : String),
       cursor ≤ plan.length →
       (Orch.insertStepBefore plan cursor stp).length = plan.length + 1 ∧
       ∀ i : Nat, i < cursor →
         (Orch.insertStepBefore plan cursor stp)[i]? = plan[i]?) ∧
    (∀ (Pg : Type) (bound : Nat) (P : Orch.Policies Pg)
       (s : Orch.OrchState Pg),
       (Orch.stepOrch bound P s).plan = s.plan ∨
       (∃ x, (Orch.stepOrch bound P s).plan = s.plan.set s.cursor x) ∨
       (∃ x, (Orch.stepOrch bound P s).plan =
         Orch.insertStepBefore s.plan s.cursor x)) ∧
    (∀ (Pg : Type) (bound : Nat) (P : Orch.Policies Pg)
       (s : Orch.OrchState Pg),
       s.cursor ≤ (Orch.stepOrch bound P s).cursor) := by
  refine ⟨?_, ?_, ?_⟩
  · intro plan cursor stp hle
    refine ⟨List.length_insertIdx cursor plan hle, ?_⟩
    intro i hi
    have hlen : i < plan.length := Nat.lt_of_lt_of_le hi hle
    have hlen2 : i < (Orch.insertStepBefore plan cursor stp).length := by
      rw [Orch.insertStepBefore, List.length_insertIdx cursor plan hle]
      omega
    rw [List.getElem?_eq_getElem hlen2, List.getElem?_eq_getElem hlen]
    exact congrArg some (List.getElem_insertIdx_of_lt plan stp cursor i hi hlen)
  · intro Pg bound P s
    by_cases hs : s.status = .running
    · by_cases hc : s.cursor < s.plan.length
      · by_cases hv : (Orch.stepDecision P s).verdict = .success ∧
            (Orch.stepDecision P s).step_complete = true
        · cases hg : (Orch.stepDecision P s).goal_complete
          · rw [Orch.stepOrch_advance bound P s hs hc hv hg]
            exact Or.inl rfl
          · rw [Orch.stepOrch_goal_done bound P s hs hc hv hg]
            exact Or.inl rfl
        · by_cases hb : bound < s.counters s.cursor + 1
          · rw [Orch.stepOrch_forced_abort bound P s hs hc hv hb]
            exact Or.inl rfl
          · rw [Orch.stepOrch_repair bound P s hs hc hv hb]
            cases hp : (Orch.stepPatch P s).update_type
            · exact Or.inr (Or.inl ⟨_, rfl⟩)
            · exact Or.inr (Or.inr ⟨_, rfl⟩)
            · exact Or.inl rfl
            · exact Or.inl rfl
      · rw [Orch.stepOrch_exhausted bound P s hs hc]
        exact Or.inl rfl
    · rw [Orch.stepOrch_stopped bound P s hs]
      exact Or.inl rfl
  · intro Pg bound P s
    by_cases hs : s.status = .running
    · by_cases hc : s.cursor < s.plan.length
      · by_cases hv : (Orch.stepDecision P s).verdict = .success ∧
            (Orch.stepDecision P s).step_complete = true
        · cases hg : (Orch.stepDecision P s).goal_complete
          · rw [Orch.stepOrch_advance bound P s hs hc hv hg]
            exact Nat.le_succ _
          · rw [Orch.stepOrch_goal_done bound P s hs hc hv hg]
        · by_cases hb : bound < s.counters s.cursor + 1
          · rw [Orch.stepOrch_forced_abort bound P s hs hc hv hb]
          · rw [Orch.stepOrch_repair bound P s hs hc hv hb]
            cases hp : (Orch.stepPatch P s).update_type <;> exact Nat.le_refl _
      · rw [Orch.stepOrch_exhausted bound P s hs hc]
    · rw [Orch.stepOrch_stopped bound P s hs]

/-- Witness for C7: inserting before position 1 of a two-step plan yields
three steps and keeps step 0 byte-for-byte. -/
theorem plan_patch_integrity_witness :
    (Orch.insertStepBefore ["Open the site", "Click Submit"] 1
      "Log in first").length = 3 ∧
    (Orch.insertStepBefore ["Open the site", "Click Submit"] 1
      "Log in first")[0]? = (["Open the site", "Click Submit"] :
        List String)[0]? :=
  ⟨(plan_patch_integrity.1 ["Open the site", "Click Submit"] 1
      "Log in first" (by decide)).1,
   (plan_patch_integrity.1 ["Open the site", "Click Submit"] 1
      "Log in first" (by decide)).2 0 (by decide)⟩

namespace Orch

theorem stepOrch_fail_revise {Pg : Type} (bound : Nat) (P : Policies Pg)
    (s : OrchState Pg)
    (hfail : ∀ g st r b a, (P.verify g st r b a).verdict = .failure)
    (hrev : ∀ g st d r p, (P.fallback g st d r p).update_type = .revise_step)
    (hs : s.status = .running) (hc : s.cursor < s.plan.length)
    (hb : ¬ bound < s.counters s.cursor + 1) :
    (stepOrch bound P s).status = .running ∧
    (stepOrch bound P s).cursor = s.cursor ∧
    (stepOrch bound P s).counters s.cursor = s.counters s.cursor + 1 ∧
    (stepOrch bound P s).plan.length = s.plan.length := by
  have hd : (stepDecision P s).verdict = Outcome.failure := hfail _ _ _ _ _
  have hv : ¬ ((stepDecision P s).verdict = .success ∧
      (stepDecision P s).step_complete = true) := by
    intro hcon
    rw [hcon.1] at hd
    exact Outcome.noConfusion hd
  have hpz : (stepPatch P s).update_type = .revise_step := hrev _ _ _ _ _
  rw [stepOrch_repair bound P s hs hc hv hb]
  simp only [hpz]
  simp [bumpCounter, hs]

theorem stepOrch_fail_forced {Pg : Type} (bound : Nat) (P : Policies Pg)
    (s : OrchState Pg)
    (hfail : ∀ g st r b a, (P.verify g st r b a).verdict = .failure)
    (hs : s.status = .running) (hc : s.cursor < s.plan.length)
    (hb : bound < s.counters s.cursor + 1) :
    (stepOrch bound P s).status =
      .aborted .escalation_limit_exceeded (escalationDiagnosis s.cursor) := by
  have hd : (stepDecision P s).verdict = Outcome.failure := hfail _ _ _ _ _
  have hv : ¬ ((stepDecision P s).verdict = .success ∧
      (stepDecision P s).step_complete = true) := by
    intro hcon
    rw [hcon.1] at hd
    exact Outcome.noConfusion hd
  rw [stepOrch_forced_abort bound P s hs hc hv hb]

theorem orchMeasure_decrease {Pg : Type} (bound : Nat) (P : Policies Pg)
    (s : OrchState Pg)
    (hni : ∀ g st d r p,
      (P.fallback g st d r p).update_type ≠ .insert_step_before)
    (hs : s.status = .running)
    (hrun : (stepOrch bound P s).status = .running) :
    orchMeasure bound (stepOrch bound P s) < orchMeasure bound s := by
  by_cases hc : s.cursor < s.plan.length
  · by_cases hv : (stepDecision P s).verdict = .success ∧
        (stepDecision P s).step_complete = true
    · cases hg : (stepDecision P s).goal_complete
      · rw [stepOrch_advance bound P s hs hc hv hg]
        have hm1 := Nat.min_le_right (s.counters (s.cursor + 1)) (bound + 1)
        have hm2 := Nat.min_le_right (s.counters s.cursor) (bound + 1)
        unfold orchMeasure
        simp only
        have h1 : s.plan.length - s.cursor =
            (s.plan.length - (s.cursor + 1)) + 1 := by omega
        rw [h1, Nat.succ_mul]
        generalize (s.plan.length - (s.cursor + 1)) * (bound + 2) = X at *
        omega
      · rw [stepOrch_goal_done bound P s hs hc hv hg] at hrun
        exact absurd hrun (by simp)
    · by_cases hb : bound < s.counters s.cursor + 1
      · rw [stepOrch_forced_abort bound P s hs hc hv hb] at hrun
        exact absurd hrun (by simp)
      · have hpat := stepOrch_repair bound P s hs hc hv hb
        cases hp : (stepPatch P s).update_type
        · rw [hpat]
          simp only [hp]
          unfold orchMeasure
          simp only [List.length_set]
          have hcnt : bumpCounter s.counters s.cursor
              (s.counters s.cursor + 1) s.cursor =
              s.counters s.cursor + 1 := by simp [bumpCounter]
          rw [hcnt]
          have hle1 : s.counters s.cursor + 1 ≤ bound := by omega
          rw [Nat.min_eq_left (by omega), Nat.min_eq_left (by omega)]
          have hP : bound + 2 ≤ (s.plan.length - s.cursor) * (bound + 2) :=
            Nat.le_mul_of_pos_left (bound + 2) (by omega)
          generalize (s.plan.length - s.cursor) * (bound + 2) = X at *
          omega
        · exact absurd hp (hni _ _ _ _ _)
        · rw [hpat] at hrun
          simp only [hp] at hrun
          exact absurd hrun (by simp)
        · rw [hpat] at hrun
          simp only [hp] at hrun
          exact absurd hrun (by simp)
  · rw [stepOrch_exhausted bound P s hs hc] at hrun
    exact absurd hrun (by simp)

end Orch

/-- C1: each plan position tracks its own repair-attempt counter — a repair
touches no other position's counter — and once the active position's counter
reaches the bound, one more verification failure makes the Orchestrator
abort with escalation_limit_exceeded no matter what the FallbackAgent would
propose (it is not consulted); with the default bound 3, a 4th consecutive
failure at the same position yields ABORTED with escalation_limit_exceeded;
and as long as the FallbackAgent never inserts steps (in particular when it
proposes repeated revisions) the loop terminates within the measure's worth
of iterations. -/
theorem escalation_guard :
    (∀ (Pg : Type) (bound : Nat) (P : Orch.Policies Pg)
       (fb : String → String → Orch.VerificationDecision →
         Orch.ExecutionRecord → Pg → Orch.FallbackPatch)
       (s : Orch.OrchState Pg),
       s.status = .running → s.cursor < s.plan.length →
       ¬ ((Orch.stepDecision P s).verdict = .success ∧
         (Orch.stepDecision P s).step_complete = true) →
       bound ≤ s.counters s.cursor →
       Orch.stepOrch bound ⟨P.exec, P.verify, fb⟩ s =
         Orch.stepOrch bound P s ∧
       (Orch.stepOrch bound P s).status =
         .aborted .escalation_limit_exceeded
           (Orch.escalationDiagnosis s.cursor)) ∧
    (∀ (Pg : Type) (bound : Nat) (P : Orch.Policies Pg)
       (s : Orch.OrchState Pg) (j : Nat),
       j ≠ s.cursor →
       s.status = .running → s.cursor < s.plan.length →
       ¬ ((Orch.stepDecision P s).verdict = .success ∧
         (Orch.stepDecision P s).step_complete = true) →
       ¬ bound < s.counters s.cursor + 1 →
       (Orch.stepPatch P s).update_type = .revise_step →
       (Orch.stepOrch bound P s).counters j = s.counters j ∧
       (Orch.stepOrch bound P s).counters s.cursor =
         s.counters s.cursor + 1) ∧
    (∀ (Pg : Type) (P : Orch.Policies Pg) (goal : String)
       (plan : List String) (pg : Pg),
       0 < plan.length →
       (∀ g st r b a, (P.verify g st r b a).verdict = .failure) →
       (∀ g st d r p, (P.fallback g st d r p).update_type = .revise_step) →
       (Orch.runOrch 3 P 4 (Orch.initState goal plan pg)).status =
         .aborted .escalation_limit_exceeded (Orch.escalationDiagnosis 0)) ∧
    (∀ (Pg : Type) (bound : Nat) (P : Orch.Policies Pg)
       (s : Orch.OrchState Pg) (n : Nat),
       (∀ g st d r p,
         (P.fallback g st d r p).update_type ≠ .insert_step_before) →
       Orch.orchMeasure bound s < n →
       (Orch.runOrch bound P n s).status ≠ .running) := by
  refine ⟨?_, ?_, ?_, ?_⟩
  · intro Pg bound P fb s hs hc hv hle
    have hb : bound < s.counters s.cursor + 1 := Nat.lt_succ_of_le hle
    rw [Orch.stepOrch_forced_abort bound P s hs hc hv hb,
        Orch.stepOrch_forced_abort bound ⟨P.exec, P.verify, fb⟩ s hs hc hv hb]
    exact ⟨rfl, rfl⟩
  · intro Pg bound P s j hj hs hc hv hb hp
    rw [Orch.stepOrch_repair bound P s hs hc hv hb]
    simp only [hp]
    exact ⟨by simp [Orch.bumpCounter, hj], by simp [Orch.bumpCounter]⟩
  · intro Pg P goal plan pg hplan hfail hrev
    set s0 := Orch.initState goal plan pg with hs0
    have h0s : s0.status = .running := rfl
    have h0c : s0.cursor = 0 := rfl
    have h0cnt : s0.counters 0 = 0 := rfl
    have h0len : s0.plan.length = plan.length := rfl
    have h0lt : s0.cursor < s0.plan.length := by
      rw [h0c, h0len]; exact hplan
    have step1 := Orch.stepOrch_fail_revise 3 P s0 hfail hrev h0s h0lt
      (by rw [h0c, h0cnt]; omega)
    set s1 := Orch.stepOrch 3 P s0 with hs1
    have h1c : s1.cursor = 0 := by rw [step1.2.1, h0c]
    have h1cnt : s1.counters 0 = 1 := by
      have := step1.2.2.1
      rw [h0c] at this
      rw [this, h0cnt]
    have h1lt : s1.cursor < s1.plan.length := by
      rw [h1c, step1.2.2.2, h0len]; exact hplan
    have step2 := Orch.stepOrch_fail_revise 3 P s1 hfail hrev step1.1 h1lt
      (by rw [h1c, h1cnt]; omega)
    set s2 := Orch.stepOrch 3 P s1 with hs2
    have h2c : s2.cursor = 0 := by rw [step2.2.1, h1c]
    have h2cnt : s2.counters 0 = 2 := by
      have := step2.2.2.1
      rw [h1c] at this
      rw [this, h1cnt]
    have h2lt : s2.cursor < s2.plan.length := by
      rw [h2c, step2.2.2.2, step1.2.2.2, h0len]; exact hplan
    have step3 := Orch.stepOrch_fail_revise 3 P s2 hfail hrev step2.1 h2lt
      (by rw [h2c, h2cnt]; omega)
    set s3 := Orch.stepOrch 3 P s2 with hs3
    have h3c : s3.cursor = 0 := by rw [step3.2.1, h2c]
    have h3cnt : s3.counters 0 = 3 := by
      have := step3.2.2.1
      rw [h2c] at this
      rw [this, h2cnt]
    have h3lt : s3.cursor < s3.plan.length := by
      rw [h3c, step3.2.2.2, step2.2.2.2, step1.2.2.2, h0len]; exact hplan
    have step4 := Orch.stepOrch_fail_forced 3 P s3 hfail step3.1 h3lt
      (by rw [h3c, h3cnt]; omega)
    rw [Orch.runOrch_succ_running 3 P 3 s0 h0s, ← hs1,
        Orch.runOrch_succ_running 3 P 2 s1 step1.1, ← hs2,
        Orch.runOrch_succ_running 3 P 1 s2 step2.1, ← hs3,
        Orch.runOrch_succ_running 3 P 0 s3 step3.1]
    rw [show Orch.runOrch 3 P 0 (Orch.stepOrch 3 P s3) =
      Orch.stepOrch 3 P s3 from rfl]
    rw [step4, h3c]
  · intro Pg bound P s n hni
    induction n generalizing s with
    | zero => intro hm; exact absurd hm (Nat.not_lt_zero _)
    | succ n ih =>
        intro hm
        by_cases hs : s.status = .running
        · rw [Orch.runOrch_succ_running bound P n s hs]
          by_cases hr : (Orch.stepOrch bound P s).status = .running
          · exact ih (Orch.stepOrch bound P s)
              (Nat.lt_of_lt_of_le
                (Orch.orchMeasure_decrease bound P s hni hs hr)
                (Nat.lt_succ_iff.mp hm))
          · rw [Orch.runOrch_stopped bound P n _ hr]
            exact hr
        · rw [Orch.runOrch_stopped bound P (n + 1) s hs]
          exact hs

/-- Witness for C1: with the concrete always-failing, always-revising
policies and a one-step plan, the 4th failure at position 0 aborts the
session with escalation_limit_exceeded, and the run is terminal. -/
theorem escalation_guard_witness :
    (Orch.runOrch 3 Orch.cPolicies 4 Orch.cInit).status =
      .aborted .escalation_limit_exceeded (Orch.escalationDiagnosis 0) ∧
    (Orch.runOrch 3 Orch.cPolicies 9 Orch.cInit).status ≠ .running := by
  constructor
  · exact escalation_guard.2.2.1 Unit Orch.cPolicies "Submit the form"
      ["Click Submit"] () (by decide)
      (by
        intro g st r b a
        show (Orch.verifyDecision .unsatisfied false r).verdict = _
        by_cases h : r.status = Orch.Outcome.success <;>
          simp [Orch.verifyDecision, h])
      (fun g st d r p => rfl)
  · exact escalation_guard.2.2.2 Unit 3 Orch.cPolicies Orch.cInit 9
      (fun g st d r p => by
        show Orch.UpdateType.revise_step ≠ _
        decide)
      (by decide)

/-- C8: the control loop is deterministic under fixed inputs: for a fixed
goal, plan and deterministic policy components, any two completed runs from
the same initial state are the same state — in particular their Traces are
identical. -/
theorem replay_deterministic :
    ∀ (Pg : Type) (bound : Nat) (P : Orch.Policies Pg)
      (s : Orch.OrchState Pg) (n m : Nat),
      (Orch.runOrch bound P n s).status ≠ .running →
      (Orch.runOrch bound P m s).status ≠ .running →
      Orch.runOrch bound P n s = Orch.runOrch bound P m s ∧
      (Orch.runOrch bound P n s).trace =
        (Orch.runOrch bound P m s).trace := by
  have mono : ∀ (Pg : Type) (bound : Nat) (P : Orch.Policies Pg)
      (s : Orch.OrchState Pg) (n m : Nat),
      n ≤ m → (Orch.runOrch bound P n s).status ≠ .running →
      Orch.runOrch bound P m s = Orch.runOrch bound P n s := by
    intro Pg bound P s n m hnm hterm
    obtain ⟨k, rfl⟩ := Nat.exists_eq_add_of_le hnm
    rw [Orch.runOrch_add bound P n k s]
    exact Orch.runOrch_stopped bound P k _ hterm
  intro Pg bound P s n m hn hm
  rcases Nat.le_total n m with h | h
  · have heq := mono Pg bound P s n m h hn
    exact ⟨heq.symm, by rw [heq]⟩
  · have heq := mono Pg bound P s m n h hm
    exact ⟨heq, by rw [heq]⟩

/-- Witness for C8: two completed replays of the concrete session (with
different fuel) are the same state. -/
theorem replay_deterministic_witness :
    (Orch.runOrch 3 Orch.cPolicies 4 Orch.cInit).status ≠ .running ∧
    Orch.runOrch 3 Orch.cPolicies 4 Orch.cInit =
      Orch.runOrch 3 Orch.cPolicies 9 Orch.cInit :=
  ⟨by decide,
   (replay_deterministic Unit 3 Orch.cPolicies Orch.cInit 4 9
     (by decide) (by decide)).1⟩

/-- C6: every non-running terminal status — ABORTED included — produces an
InteractionAgent-equivalent user-facing response (never a bare internal
error); the abort response's message carries the diagnosis, and on an
escalation-limit abort it explicitly states that the repair bound was
exceeded; any run of the loop that ends ABORTED therefore still has a
response. -/
theorem aborted_sessions_still_report :
    (∀ (goal : String) (st : Orch.SessionStatus), st ≠ .running →
       (Orch.formatTerminal goal st).isSome = true) ∧
    (∀ (goal : String) (k : Orch.ErrorKind) (d : String),
       ∃ pre post data, Orch.formatTerminal goal (.aborted k d) =
         some (.finish (pre ++ d ++ post) data)) ∧
    (∀ (goal : String) (d : String),
       ∃ pre post data, Orch.formatTerminal goal
           (.aborted .escalation_limit_exceeded d) =
         some (.finish (pre ++ Orch.escalationNotice ++ post) data)) ∧
    (∀ (Pg : Type) (bound : Nat) (P : Orch.Policies Pg)
       (s : Orch.OrchState Pg) (n : Nat) (k : Orch.ErrorKind) (d : String),
       (Orch.runOrch bound P n s).status = .aborted k d →
       ∃ resp, Orch.formatTerminal s.goal
         (Orch.runOrch bound P n s).status = some resp) := by
  refine ⟨?_, ?_, ?_, ?_⟩
  · intro goal st hst
    cases st with
    | running => exact absurd rfl hst
    | goal_completed => rfl
    | needs_clarification ctx => rfl
    | aborted k d =>
        by_cases hk : k = Orch.ErrorKind.escalation_limit_exceeded <;>
          simp [Orch.formatTerminal, hk]
  · intro goal k d
    by_cases hk : k = Orch.ErrorKind.escalation_limit_exceeded
    · subst hk
      refine ⟨"Task aborted: ", " " ++ Orch.escalationNotice ++ "", "", ?_⟩
      simp [Orch.formatTerminal, String.append_assoc]
    · refine ⟨"Task aborted: ", "", "", ?_⟩
      simp [Orch.formatTerminal, hk, String.append_empty]
  · intro goal d
    refine ⟨"Task aborted: " ++ d ++ " ", "", "", ?_⟩
    simp [Orch.formatTerminal]
  · intro Pg bound P s n k d h
    rw [h]
    by_cases hk : k = Orch.ErrorKind.escalation_limit_exceeded
    · subst hk
      exact ⟨_, rfl⟩
    · exact ⟨.finish ("Task aborted: " ++ d) "",
        by simp [Orch.formatTerminal, hk]⟩

/-- Witness for C6: the escalation-limit abort of the concrete session has
a response whose message carries the bound-exceeded notice. -/
theorem aborted_sessions_still_report_witness :
    (Orch.formatTerminal "Submit the form"
      (.aborted .escalation_limit_exceeded "target not found")).isSome =
        true ∧
    ∃ pre post data,
      Orch.formatTerminal "Submit the form"
          (.aborted .escalation_limit_exceeded "target not found") =
        some (.finish (pre ++ Orch.escalationNotice ++ post) data) :=
  ⟨aborted_sessions_still_report.1 "Submit the form"
    (.aborted .escalation_limit_exceeded "target not found") (by decide),
   aborted_sessions_still_report.2.2.1 "Submit the form" "target not found"⟩

end IBA
